import Mathlib

/-
  Verification development for the Rust7 S7 client (src/src/client.rs).

  The Rust code is shallowly embedded: machine integers (u8/u16/u32/usize)
  are modelled as Nat with explicit wrapping (`% 2^w`) at the operations
  where the Rust semantics wraps (release mode); the predicates
  `u16SubUnderflows` / overflow bounds mark the places where a debug build
  would abort instead.  Network I/O is modelled by passing the byte
  sequences the peer would deliver as explicit inputs, and every telegram
  the client writes to the socket is collected in a `sent` trace.
  The floating point field `last_time : f64` is only ever set to the exact
  literal 0.0 or to a positive elapsed-time measurement, so it is modelled
  as a Nat (0 encodes 0.0, the success value is an input of the model).
-/

namespace Rust7

/-! ## Constants (from src/src/client.rs) -/

def CT_PG : Nat := 0x0001
def CT_OP : Nat := 0x0002
def CT_S7 : Nat := 0x0003

def S7_AREA_PE : Nat := 0x81
def S7_AREA_PA : Nat := 0x82
def S7_AREA_MK : Nat := 0x83
def S7_AREA_DB : Nat := 0x84

def S7_WL_BIT : Nat := 0x01
def S7_WL_BYTE : Nat := 0x02

def TS_RES_BIT : Nat := 0x03
def TS_RES_BYTE : Nat := 0x04

def TPKT_ISO_LEN : Nat := 7
def PDU_LEN_REQ : Nat := 480
def ISO_CR_LEN : Nat := 22
def ISO_CONN_REQ : Nat := 0xE0
def ISO_CONN_OK : Nat := 0xD0
def ISO_PN_REQ_LEN : Nat := 25
def ISO_PN_RES_LEN : Nat := 27
def ISO_ID : Nat := 0x03
def S7_ID : Nat := 0x32

def READ_REQ_LEN : Nat := 31
def READ_RES_LEN : Nat := 18
def WRITE_RES_LEN : Nat := 15

def EOT : Nat := 0x80
def RW_RES_OFFSET : Nat := 14

def RES_SUCCESS : Nat := 0xFF
def RES_INVALID_ADDRESS : Nat := 0x05
def RES_NOT_FOUND : Nat := 0x0A

/-! ## Machine-integer helpers (macros hi_part, lo_part, make_u16) -/

/-- `lo_part!(x)`: `(x & 0xFF) as u8`. -/
def lo8 (x : Nat) : Nat := x % 256

/-- `hi_part!(x)`: `((x >> 8) & 0xFF) as u8`. -/
def hi8 (x : Nat) : Nat := x / 256 % 256

/-- `make_u16!(hi, lo)`: `((hi as u16) << 8) | (lo as u16)` on u8 inputs. -/
def mk_u16 (hi lo : Nat) : Nat := hi % 256 * 256 + lo % 256

/-- u16 wrapping subtraction (release semantics); sound for `b ≤ 65536`. -/
def u16_sub (a b : Nat) : Nat := (a + 65536 - b) % 65536

/-- The Rust u16 subtraction `a - b` aborts in a debug build (and wraps in a
release build) exactly when this holds. -/
def u16SubUnderflows (a b : Nat) : Prop := a < b

instance (a b : Nat) : Decidable (u16SubUnderflows a b) :=
  inferInstanceAs (Decidable (a < b))

/-! ## Errors -/

/-- `S7Error` from the source; payload-carrying variants (`Io(io::Error)`,
`Other(String)`) are modelled without their payloads, which no claim
inspects. -/
inductive S7Error where
  | Io
  | NotConnected
  | TcpConnectionFailed
  | ConnectionClosed
  | IsoConnectionFailed
  | IsoFragmentedPacket
  | IsoInvalidHeader
  | IsoInvalidTelegram
  | PduNegotiationFailed
  | S7NotFound
  | S7InvalidAddress
  | S7Unspecified
  | Other
deriving DecidableEq

deriving instance DecidableEq for Except

/-! ## ISO framing (check_iso_packet) -/

/-- The 7-byte TPKT+COTP prefix (`iso_packet: [u8; TPKT_ISO_LEN]`). -/
structure IsoHeader where
  b0 : Nat
  b1 : Nat
  b2 : Nat
  b3 : Nat
  b4 : Nat
  b5 : Nat
  b6 : Nat
deriving DecidableEq

/-- `check_iso_packet` (client.rs lines 149-183), translated clause by
clause from the source. -/
def check_iso_packet (pdu_length : Nat) (iso_packet : IsoHeader) :
    Except S7Error Nat :=
  if iso_packet.b0 ≠ ISO_ID ∨ iso_packet.b4 ≠ 0x02 ∨ iso_packet.b5 ≠ 0xF0 then
    .error .IsoInvalidHeader
  else if iso_packet.b6 ≠ EOT then
    .error .IsoFragmentedPacket
  else
    let telegram_length := mk_u16 iso_packet.b2 iso_packet.b3
    if telegram_length < TPKT_ISO_LEN ∨
        telegram_length - TPKT_ISO_LEN > pdu_length ∨
        telegram_length - TPKT_ISO_LEN = 0 then
      .error .IsoInvalidTelegram
    else
      .ok (telegram_length - TPKT_ISO_LEN)

/-- Claim C1 as the spec words it: fragmentation is reported when the EOT
*bit* (bit 7) of byte 6 is absent.  Second definition for the refinement
comparison; everything else follows the claim text verbatim. -/
def check_iso_packet_as_claimed (pdu_length : Nat) (p : IsoHeader) :
    Except S7Error Nat :=
  if p.b0 ≠ 0x03 ∨ p.b4 ≠ 0x02 ∨ p.b5 ≠ 0xF0 then
    .error .IsoInvalidHeader
  else if Nat.testBit p.b6 7 = false then
    .error .IsoFragmentedPacket
  else
    let telegram_length := mk_u16 p.b2 p.b3
    if telegram_length - 7 = 0 ∨ telegram_length - 7 > pdu_length then
      .error .IsoInvalidTelegram
    else
      .ok (telegram_length - 7)

/-- Claim C1 amended: as C1, but the fragmented-packet test is
`byte[6] ≠ 0x80` (the whole byte must equal EOT), not merely the EOT bit
being absent. -/
def check_iso_packet_amended (pdu_length : Nat) (p : IsoHeader) :
    Except S7Error Nat :=
  if p.b0 ≠ 0x03 ∨ p.b4 ≠ 0x02 ∨ p.b5 ≠ 0xF0 then
    .error .IsoInvalidHeader
  else if p.b6 ≠ 0x80 then
    .error .IsoFragmentedPacket
  else
    let telegram_length := mk_u16 p.b2 p.b3
    if telegram_length - 7 = 0 ∨ telegram_length - 7 > pdu_length then
      .error .IsoInvalidTelegram
    else
      .ok (telegram_length - 7)

/-! ## Session state -/

/-- `S7Client` (client.rs lines 122-142).  The `stream : Option<TcpStream>`
handle is summarized by the `connected` flag (the code keeps the two in
lock step); `last_time : f64` is modelled as a Nat as explained above. -/
structure S7Client where
  port : Nat
  co_timeout_ms : Nat
  rd_timeout_ms : Nat
  wr_timeout_ms : Nat
  conn_type : Nat
  max_rd_pdu_data : Nat
  max_wr_pdu_data : Nat
  pdu_length : Nat
  connected : Bool
  last_time : Nat
  chunks : Nat
deriving DecidableEq

/-- `S7Client::new` (client.rs lines 193-208). -/
def S7Client.new : S7Client :=
  { port := 102
    co_timeout_ms := 3000
    rd_timeout_ms := 1000
    wr_timeout_ms := 500
    conn_type := CT_PG
    max_rd_pdu_data := 0
    max_wr_pdu_data := 0
    pdu_length := 0
    connected := false
    last_time := 0
    chunks := 0 }

/-- `set_connection_type` (client.rs lines 233-235): stores the value
unconditionally. -/
def set_connection_type (c : S7Client) (connection_type : Nat) : S7Client :=
  { c with conn_type := connection_type }

/-- `set_timeout` (client.rs lines 248-258): each component is stored only
when it is positive. -/
def set_timeout (c : S7Client) (co_timeout_ms rd_timeout_ms wr_timeout_ms : Nat) :
    S7Client :=
  let c1 := if co_timeout_ms > 0 then { c with co_timeout_ms := co_timeout_ms } else c
  let c2 := if rd_timeout_ms > 0 then { c1 with rd_timeout_ms := rd_timeout_ms } else c1
  if wr_timeout_ms > 0 then { c2 with wr_timeout_ms := wr_timeout_ms } else c2

/-- `set_connection_port` (client.rs lines 271-275): stored only when
positive. -/
def set_connection_port (c : S7Client) (port : Nat) : S7Client :=
  if port > 0 then { c with port := port } else c

/-! ## Connection handshake -/

/-- One network interaction for `connect_tsap`: either the TCP layer fails,
or the peer answers the connection request with `iso_resp` and the PDU
negotiation with `pn_resp` (lengths are the byte counts `stream.read`
returned); `elapsed` is the wall-clock milliseconds measurement stored in
`last_time` on success. -/
inductive ConnectIO where
  | tcpFail
  | ok (iso_resp pn_resp : List Nat) (elapsed : Nat)

/-- The 22-byte ISO connection request frame `iso_cr`
(client.rs lines 369-394). -/
def iso_cr_frame (local_tsap remote_tsap : Nat) : List Nat :=
  [ISO_ID, 0x00, hi8 ISO_CR_LEN, lo8 ISO_CR_LEN,
   0x11, ISO_CONN_REQ, 0x00, 0x00, 0x00, 0x01, 0x00, 0xC0, 0x01, 0x0A,
   0xC1, 0x02, hi8 local_tsap, lo8 local_tsap,
   0xC2, 0x02, hi8 remote_tsap, lo8 remote_tsap]

/-- The 25-byte S7 PDU negotiation frame `s7_pn`
(client.rs lines 407-416). -/
def s7_pn_frame : List Nat :=
  [ISO_ID, 0x00, 0x00, 0x19, 0x02, 0xF0, 0x80,
   S7_ID, 0x01, 0x00, 0x00, 0x04, 0x00, 0x00, 0x08, 0x00,
   0x00, 0xF0, 0x00, 0x00, 0x01, 0x00, 0x01,
   hi8 PDU_LEN_REQ, lo8 PDU_LEN_REQ]

/-- `connect_tsap` (client.rs lines 350-439).  Result: new state, outcome,
and the trace of telegrams written to the socket. -/
def connect_tsap (c : S7Client) (local_tsap remote_tsap : Nat)
    (net : ConnectIO) : S7Client × Except S7Error Unit × List (List Nat) :=
  let c0 := { c with connected := false, last_time := 0 }
  match net with
  | .tcpFail => (c0, .error .TcpConnectionFailed, [])
  | .ok iso_resp pn_resp elapsed =>
    let cr := iso_cr_frame local_tsap remote_tsap
    if iso_resp.length < ISO_CR_LEN ∨ iso_resp.getD 5 0 ≠ ISO_CONN_OK then
      (c0, .error .IsoConnectionFailed, [cr])
    else if pn_resp.length < ISO_PN_RES_LEN ∨ pn_resp.getD 0 0 ≠ ISO_ID ∨
        pn_resp.getD 7 0 ≠ S7_ID ∨ pn_resp.getD 17 0 ≠ 0x00 then
      (c0, .error .PduNegotiationFailed, [cr, s7_pn_frame])
    else
      let pdu := mk_u16 (pn_resp.getD 25 0) (pn_resp.getD 26 0)
      let c1 := { c0 with pdu_length := pdu }
      if pdu = 0 then
        (c1, .error .PduNegotiationFailed, [cr, s7_pn_frame])
      else
        ({ c1 with
            max_rd_pdu_data := u16_sub pdu 18
            max_wr_pdu_data := u16_sub pdu 28
            connected := true
            last_time := elapsed },
         .ok (), [cr, s7_pn_frame])

/-- `connect_rack_slot` (client.rs lines 320-325):
`remote_tsap = (conn_type << 8) + rack * 0x20 + slot` in u16 arithmetic
(wrapping in a release build). -/
def connect_rack_slot (c : S7Client) (rack slot : Nat) (net : ConnectIO) :
    S7Client × Except S7Error Unit × List (List Nat) :=
  let local_tsap := 0x0100
  let remote_tsap := (c.conn_type * 256 % 65536 + rack * 0x20 % 65536 + slot) % 65536
  connect_tsap c local_tsap remote_tsap net

/-- `connect_s71200_1500` (client.rs lines 286-288). -/
def connect_s71200_1500 (c : S7Client) (net : ConnectIO) :
    S7Client × Except S7Error Unit × List (List Nat) :=
  connect_rack_slot c 0 0 net

/-- `connect_s7300` (client.rs lines 299-301). -/
def connect_s7300 (c : S7Client) (net : ConnectIO) :
    S7Client × Except S7Error Unit × List (List Nat) :=
  connect_rack_slot c 0 2 net

/-! ## Read/write engines -/

/-- The network input for one chunk iteration: the 7-byte TPKT+COTP prefix
delivered by `read_exact` and the bytes `stream.read` then placed in the
480-byte response buffer (`size_resp = min resp.length 480`). -/
structure ChunkIO where
  iso : IsoHeader
  resp : List Nat

/-- The 31-byte Read-Var request (client.rs lines 537-569), with the
address bytes already patched in. -/
def read_request (wordlen chunk_size db_number area address : Nat) : List Nat :=
  [ISO_ID, 0x00, 0x00, 0x1F, 0x02, 0xF0, 0x80, S7_ID, 0x01, 0x00, 0x00,
   0x05, 0x00, 0x00, 0x0E, 0x00, 0x00, 0x04, 0x01, 0x12, 0x0A, 0x10,
   wordlen, hi8 chunk_size, lo8 chunk_size, hi8 db_number, lo8 db_number,
   area, address / 65536 % 256, address / 256 % 256, address % 256]

/-- The 35-byte Write-Var header plus payload (client.rs lines 694-729),
with total length and address bytes already patched in. -/
def write_request (wordlen chunk_size db_number area address : Nat)
    (chunk : List Nat) : List Nat :=
  let transport := if wordlen = S7_WL_BIT then TS_RES_BIT else TS_RES_BYTE
  let bits_payload := if wordlen = S7_WL_BIT then 1 else chunk_size * 8 % 65536
  let total_len := 35 + chunk_size
  [ISO_ID, 0x00, hi8 total_len, lo8 total_len, 0x02, 0xF0, 0x80, S7_ID,
   0x01, 0x00, 0x00, 0x05, 0x00, 0x00, 0x0E,
   hi8 (chunk_size + 4), lo8 (chunk_size + 4), 0x05, 0x01, 0x12, 0x0A, 0x10,
   wordlen, hi8 chunk_size, lo8 chunk_size, hi8 db_number, lo8 db_number,
   area, address / 65536 % 256, address / 256 % 256, address % 256,
   0x00, transport, hi8 bits_payload, lo8 bits_payload] ++ chunk

/-- The per-item result byte decoding shared by the read and write loops
(client.rs lines 591-597 and 762-768). -/
def decode_result_code (b : Nat) : Except S7Error Unit :=
  if b = RES_SUCCESS then .ok ()
  else if b = RES_NOT_FOUND then .error .S7NotFound
  else if b = RES_INVALID_ADDRESS then .error .S7InvalidAddress
  else .error .S7Unspecified

/-- Response validation of one read chunk (client.rs lines 574-601): ISO
prefix check, response-header length check, received-size check, result
byte; on success returns the payload slice
`response[18 .. 18 + min(size_resp - 18, chunk_size)]`. -/
def read_chunk_check (pdu_length chunk_size : Nat) (io : ChunkIO) :
    Except S7Error (List Nat) :=
  match check_iso_packet pdu_length io.iso with
  | .error e => .error e
  | .ok s7_comm_size =>
    if s7_comm_size < READ_RES_LEN then .error .IsoInvalidTelegram
    else
      let size_resp := min io.resp.length PDU_LEN_REQ
      if size_resp < s7_comm_size then .error .IsoInvalidTelegram
      else
        match decode_result_code (io.resp.getD RW_RES_OFFSET 0) with
        | .error e => .error e
        | .ok () =>
          .ok ((io.resp.take
            (READ_RES_LEN + min (size_resp - READ_RES_LEN) chunk_size)).drop
              READ_RES_LEN)

/-- Response validation of one write chunk (client.rs lines 745-768). -/
def write_chunk_check (pdu_length : Nat) (io : ChunkIO) :
    Except S7Error Unit :=
  match check_iso_packet pdu_length io.iso with
  | .error e => .error e
  | .ok s7_comm_size =>
    if s7_comm_size < WRITE_RES_LEN then .error .IsoInvalidTelegram
    else
      let size_resp := min io.resp.length PDU_LEN_REQ
      if size_resp < s7_comm_size then .error .IsoInvalidTelegram
      else decode_result_code (io.resp.getD RW_RES_OFFSET 0)

/-- Outcome of a read or write chunk loop: final chunk counter, caller
buffer, trace of sent telegrams, and the operation result. -/
structure LoopOut where
  chunks : Nat
  buffer : List Nat
  sent : List (List Nat)
  result : Except S7Error Unit

/-- The `while offset < datasize` loop of `read_area` (client.rs lines
531-605).  The loop is driven by explicit fuel; `none` models the
non-terminating spin that the Rust loop would enter if `max_rd_pdu_data`
were 0 (chunk_size 0 never advances `offset`).  Exhaustion of `resps`
models the socket read failing (an `Io` error). -/
def read_loop (max_rd pdu_length datasize db_number area wordlen : Nat)
    (resps : List ChunkIO) (offset long_start chunks : Nat)
    (buffer : List Nat) (sent : List (List Nat)) (fuel : Nat) :
    Option LoopOut :=
  if datasize ≤ offset then some ⟨chunks, buffer, sent, .ok ()⟩
  else
    match fuel with
    | 0 => none
    | fuel + 1 =>
      let chunk_size := min (datasize - offset) max_rd
      let chunks := chunks + 1
      let address := if wordlen = S7_WL_BIT then long_start else long_start * 8
      let request := read_request wordlen chunk_size db_number area address
      let sent := sent ++ [request]
      match resps with
      | [] => some ⟨chunks, buffer, sent, .error .Io⟩
      | io :: resps =>
        match read_chunk_check pdu_length chunk_size io with
        | .error e => some ⟨chunks, buffer, sent, .error e⟩
        | .ok payload =>
          let buffer := buffer.take offset ++ payload ++
            buffer.drop (offset + payload.length)
          read_loop max_rd pdu_length datasize db_number area wordlen resps
            (offset + chunk_size) (long_start + chunk_size) chunks buffer
            sent fuel

/-- The `while offset < datasize` loop of `write_area` (client.rs lines
686-773); same conventions as `read_loop`. -/
def write_loop (max_wr pdu_length datasize db_number area wordlen : Nat)
    (buffer : List Nat) (resps : List ChunkIO)
    (offset long_start chunks : Nat) (sent : List (List Nat)) (fuel : Nat) :
    Option LoopOut :=
  if datasize ≤ offset then some ⟨chunks, buffer, sent, .ok ()⟩
  else
    match fuel with
    | 0 => none
    | fuel + 1 =>
      let chunks := chunks + 1
      let chunk_size := min (datasize - offset) max_wr
      let chunk := (buffer.drop offset).take chunk_size
      let address := if wordlen = S7_WL_BIT then long_start else long_start * 8
      let request := write_request wordlen chunk_size db_number area address chunk
      let sent := sent ++ [request]
      match resps with
      | [] => some ⟨chunks, buffer, sent, .error .Io⟩
      | io :: resps =>
        match write_chunk_check pdu_length io with
        | .error e => some ⟨chunks, buffer, sent, .error e⟩
        | .ok () =>
          write_loop max_wr pdu_length datasize db_number area wordlen buffer
            resps (offset + chunk_size) (long_start + chunk_size) chunks
            sent fuel

/-- Result of a public read/write operation: final session state, outcome,
the caller buffer after the call, and the trace of sent telegrams. -/
structure OpResult where
  client : S7Client
  result : Except S7Error Unit
  buffer : List Nat
  sent : List (List Nat)

/-- `read_area` (client.rs lines 508-610).  `resps` supplies the network
responses chunk by chunk, `elapsed` the wall-clock measurement recorded in
`last_time` on success. -/
def read_area (c : S7Client) (area db_number start wordlen : Nat)
    (buffer : List Nat) (resps : List ChunkIO) (elapsed : Nat) :
    Option OpResult :=
  let c0 := { c with last_time := 0, chunks := 0 }
  if c.connected then
    let datasize := if wordlen = S7_WL_BYTE then min buffer.length 65535 else 1
    match read_loop c.max_rd_pdu_data c.pdu_length datasize db_number area
        wordlen resps 0 start 0 buffer [] datasize with
    | none => none
    | some out =>
      match out.result with
      | .ok () =>
        some ⟨{ c0 with chunks := out.chunks, last_time := elapsed },
          .ok (), out.buffer, out.sent⟩
      | .error e =>
        some ⟨{ c0 with chunks := out.chunks }, .error e, out.buffer, out.sent⟩
  else
    some ⟨c0, .error .NotConnected, buffer, []⟩

/-- `write_area` (client.rs lines 663-778). -/
def write_area (c : S7Client) (area db_number start wordlen : Nat)
    (buffer : List Nat) (resps : List ChunkIO) (elapsed : Nat) :
    Option OpResult :=
  let c0 := { c with last_time := 0, chunks := 0 }
  if c.connected then
    let datasize := if wordlen = S7_WL_BYTE then min buffer.length 65535 else 1
    match write_loop c.max_wr_pdu_data c.pdu_length datasize db_number area
        wordlen buffer resps 0 start 0 [] datasize with
    | none => none
    | some out =>
      match out.result with
      | .ok () =>
        some ⟨{ c0 with chunks := out.chunks, last_time := elapsed },
          .ok (), out.buffer, out.sent⟩
      | .error e =>
        some ⟨{ c0 with chunks := out.chunks }, .error e, out.buffer, out.sent⟩
  else
    some ⟨c0, .error .NotConnected, buffer, []⟩

/-- `read_db` (client.rs lines 796-798). -/
def read_db (c : S7Client) (db_number start : Nat) (buffer : List Nat)
    (resps : List ChunkIO) (elapsed : Nat) : Option OpResult :=
  read_area c S7_AREA_DB db_number start S7_WL_BYTE buffer resps elapsed

/-- `write_db` (client.rs lines 859-861). -/
def write_db (c : S7Client) (db_number start : Nat) (buffer : List Nat)
    (resps : List ChunkIO) (elapsed : Nat) : Option OpResult :=
  write_area c S7_AREA_DB db_number start S7_WL_BYTE buffer resps elapsed

/-- `read_bit` (client.rs lines 829-841).  The u16 computation
`byte_num * 8 + bit_idx` wraps modulo 2^16 (release semantics; a debug
build aborts when `byte_num * 8` overflows). -/
def read_bit (c : S7Client) (area db_number byte_num bit_idx : Nat)
    (resps : List ChunkIO) (elapsed : Nat) :
    Option (S7Client × Except S7Error Bool × List (List Nat)) :=
  if bit_idx > 7 then some (c, .error .S7InvalidAddress, [])
  else
    match read_area c area db_number ((byte_num * 8 + bit_idx) % 65536)
        S7_WL_BIT [0] resps elapsed with
    | none => none
    | some r =>
      match r.result with
      | .error e => some (r.client, .error e, r.sent)
      | .ok () => some (r.client, .ok (r.buffer.getD 0 0 != 0), r.sent)

/-- `write_bit` (client.rs lines 889-900); same wrapping convention as
`read_bit`. -/
def write_bit (c : S7Client) (area db_number byte_num bit_idx : Nat)
    (value : Bool) (resps : List ChunkIO) (elapsed : Nat) :
    Option (S7Client × Except S7Error Unit × List (List Nat)) :=
  if bit_idx > 7 then some (c, .error .S7InvalidAddress, [])
  else
    match write_area c area db_number ((byte_num * 8 + bit_idx) % 65536)
        S7_WL_BIT [if value then 1 else 0] resps elapsed with
    | none => none
    | some r => some (r.client, r.result, r.sent)

/-- The result packaging shared by `read_area` and `write_area` (loop
outcome to state update): on success `last_time` receives the elapsed
measurement, on error it stays 0; `chunks` is the final counter either
way.  `read_area` and `write_area` reduce to this shape (see
`read_area_byte_connected`). -/
def finish_op (c : S7Client) (elapsed : Nat) (lo : Option LoopOut) :
    Option OpResult :=
  match lo with
  | none => none
  | some out =>
    match out.result with
    | .ok _ =>
      some ⟨{ c with last_time := elapsed, chunks := out.chunks },
        .ok (), out.buffer, out.sent⟩
    | .error e =>
      some ⟨{ c with last_time := 0, chunks := out.chunks },
        .error e, out.buffer, out.sent⟩

/-! ## Observables and chunk arithmetic -/

/-- The operation finished with `Ok(())`. -/
def succeeded (o : Option OpResult) : Bool :=
  match o with
  | some r => match r.result with | .ok _ => true | .error _ => false
  | none => false

/-- The `chunks` counter of the session after the operation. -/
def chunks_of (o : Option OpResult) : Nat :=
  match o with
  | some r => r.client.chunks
  | none => 0

/-- Ceiling division on Nat: `ceil_div n m = ⌈n / m⌉` for `m > 0`. -/
def ceil_div (n m : Nat) : Nat := (n + m - 1) / m

/-- Witness session: connected, PDU 240, small payload caps. -/
def cW : S7Client :=
  { S7Client.new with
      connected := true
      pdu_length := 240
      max_rd_pdu_data := 3
      max_wr_pdu_data := 2 }

/-- Witness buffer of four bytes. -/
def bufW : List Nat := [1, 2, 3, 4]

/-- Witness chunk response: telegram length 28 (s7_comm_size 21 ≥ 18 and
≥ 15), 21 response bytes with result byte 0xFF at offset 14. -/
def ioW : ChunkIO :=
  ⟨⟨0x03, 0x00, 0x00, 28, 0x02, 0xF0, 0x80⟩,
   [0, 0, 0, 0, 0, 0, 0, 0, 0, 0, 0, 0, 0, 0, 0xFF, 0, 0, 0, 9, 9, 9]⟩

/-- Witness response stream with two chunk responses. -/
def respsW : List ChunkIO := [ioW, ioW]

/-! ## Claim theorems and witnesses -/

/-- Claim C1, counterexample: on the prefix 03 00 00 08 02 F0 81 with
pdu_length 10 the EOT bit of byte 6 is set and telegram_length - 7 = 1 lies
within the PDU, so the claim predicts success with 1; the code returns
IsoFragmentedPacket because byte 6 is not exactly 0x80. -/
theorem check_iso_packet_claim_counterexample :
    check_iso_packet 10 ⟨0x03, 0x00, 0x00, 0x08, 0x02, 0xF0, 0x81⟩ =
      .error .IsoFragmentedPacket ∧
    check_iso_packet_as_claimed 10 ⟨0x03, 0x00, 0x00, 0x08, 0x02, 0xF0, 0x81⟩ =
      .ok 1 ∧
    check_iso_packet 10 ⟨0x03, 0x00, 0x00, 0x08, 0x02, 0xF0, 0x81⟩ ≠
      check_iso_packet_as_claimed 10 ⟨0x03, 0x00, 0x00, 0x08, 0x02, 0xF0, 0x81⟩ := by
  refine ⟨rfl, rfl, ?_⟩
  decide

/-- Claim C1 (amended): for every 7-byte prefix and pdu_length,
check_iso_packet returns IsoInvalidHeader when byte 0 is not 0x03 or byte 4
is not 0x02 or byte 5 is not 0xF0; otherwise IsoFragmentedPacket when
byte 6 is not exactly 0x80; otherwise, with telegram_length the big-endian
u16 of bytes 2 and 3, IsoInvalidTelegram when telegram_length - 7 is zero
(in particular when telegram_length < 7) or exceeds pdu_length; otherwise
it succeeds returning exactly telegram_length - 7. -/
theorem check_iso_packet_characterization (pdu_length : Nat) (p : IsoHeader) :
    check_iso_packet pdu_length p = check_iso_packet_amended pdu_length p := by
  unfold check_iso_packet check_iso_packet_amended
  unfold ISO_ID EOT TPKT_ISO_LEN
  split
  · rfl
  · split
    · rfl
    · simp only []
      split
      · split
        · rfl
        · omega
      · split
        · omega
        · rfl

/-- Claim C3, counterexample: `set_connection_type 0` overwrites the
default connection type CT_PG = 1 with 0 instead of silently rejecting the
zero value. -/
theorem set_connection_type_zero_counterexample :
    (set_connection_type S7Client.new 0).conn_type = 0 ∧
    S7Client.new.conn_type = 1 ∧ (0 : Nat) ≠ 1 := by
  exact ⟨rfl, rfl, by decide⟩

/-- Claim C3 (amended): `set_connection_port 0` and zero timeout components
of `set_timeout` are silently ignored, leaving the configuration unchanged,
and non-zero values are stored; `set_connection_type`, however, stores
every value unconditionally, including 0. -/
theorem setter_zero_handling (c : S7Client) (v : Nat) :
    (set_connection_type c 0).conn_type = 0 ∧
    (set_connection_type c v).conn_type = v ∧
    set_connection_port c 0 = c ∧
    (set_connection_port c (v + 1)).port = v + 1 ∧
    set_timeout c 0 0 0 = c ∧
    set_timeout c (v + 1) 0 0 = { c with co_timeout_ms := v + 1 } ∧
    set_timeout c 0 (v + 1) 0 = { c with rd_timeout_ms := v + 1 } ∧
    set_timeout c 0 0 (v + 1) = { c with wr_timeout_ms := v + 1 } := by
  refine ⟨rfl, rfl, rfl, ?_, rfl, ?_, ?_, ?_⟩ <;>
    simp [set_connection_port, set_timeout]

/-- Claim C7, counterexample: with the default conn_type CT_PG = 1,
rack = 8, slot = 0 the code sends remote TSAP
(1 << 8) + 8 * 0x20 + 0 = 0x0200 on the wire, while the claim formula
(conn_type << 8) | (rack * 0x20 + slot) gives 0x0100 | 0x0100 = 0x0100;
the two connection-request frames differ. -/
theorem connect_rack_slot_tsap_counterexample :
    (connect_rack_slot S7Client.new 8 0 (.ok [] [] 0)).2.2 =
      [iso_cr_frame 0x0100 0x0200] ∧
    ((1 <<< 8) ||| (8 * 0x20 + 0)) = 0x0100 ∧
    iso_cr_frame 0x0100 0x0200 ≠ iso_cr_frame 0x0100 0x0100 := by
  exact ⟨rfl, by decide, by decide⟩

/-- Claim C7 (amended): for every rack, slot and configured conn_type,
connect_rack_slot equals connect_tsap with local TSAP 0x0100 and remote
TSAP ((conn_type << 8) + rack * 0x20 + slot) taken modulo 2^16 (the u16
sum, which coincides with the claim's (conn_type << 8) | (rack*0x20+slot)
whenever conn_type < 256 and rack*0x20 + slot < 256);
connect_s71200_1500 equals connect_rack_slot with rack = 0, slot = 0 and
connect_s7300 equals it with rack = 0, slot = 2; and whenever the TCP
layer connects, the first telegram written is the connection-request frame
carrying exactly those two TSAPs. -/
theorem connect_rack_slot_tsap (c : S7Client) (rack slot : Nat)
    (net : ConnectIO) :
    connect_rack_slot c rack slot net =
      connect_tsap c 0x0100
        ((c.conn_type * 256 % 65536 + rack * 0x20 % 65536 + slot) % 65536) net ∧
    connect_s71200_1500 c net = connect_rack_slot c 0 0 net ∧
    connect_s7300 c net = connect_rack_slot c 0 2 net ∧
    (∀ l r iso_resp pn_resp elapsed,
      (connect_tsap c l r (.ok iso_resp pn_resp elapsed)).2.2.head? =
        some (iso_cr_frame l r)) := by
  refine ⟨rfl, rfl, rfl, ?_⟩
  intro l r iso_resp pn_resp elapsed
  simp only [connect_tsap]
  repeat' split
  all_goals rfl

/-- Claim C9: after a well-formed handshake response, connect_tsap rejects
the negotiated pdu_length exactly when it is zero; for every negotiated
pdu_length in 1..=27 it instead succeeds, and the u16 subtractions
pdu_length - 18 (whenever pdu_length < 18) and pdu_length - 28 underflow
(aborting a debug build), storing the wrapped values pdu_length + 65518
and pdu_length + 65508 rather than returning PduNegotiationFailed. -/
theorem connect_tsap_pdu_underflow (c : S7Client) (l r : Nat)
    (iso_resp pn_resp : List Nat) (elapsed : Nat)
    (hisolen : ISO_CR_LEN ≤ iso_resp.length)
    (hisook : iso_resp.getD 5 0 = ISO_CONN_OK)
    (hpnlen : ISO_PN_RES_LEN ≤ pn_resp.length)
    (hpn0 : pn_resp.getD 0 0 = ISO_ID)
    (hpn7 : pn_resp.getD 7 0 = S7_ID)
    (hpn17 : pn_resp.getD 17 0 = 0) :
    ((connect_tsap c l r (.ok iso_resp pn_resp elapsed)).2.1 =
        .error .PduNegotiationFailed ↔
      mk_u16 (pn_resp.getD 25 0) (pn_resp.getD 26 0) = 0) ∧
    (1 ≤ mk_u16 (pn_resp.getD 25 0) (pn_resp.getD 26 0) →
     mk_u16 (pn_resp.getD 25 0) (pn_resp.getD 26 0) ≤ 27 →
      (connect_tsap c l r (.ok iso_resp pn_resp elapsed)).2.1 = .ok () ∧
      (connect_tsap c l r (.ok iso_resp pn_resp elapsed)).1.connected = true ∧
      u16SubUnderflows (mk_u16 (pn_resp.getD 25 0) (pn_resp.getD 26 0)) 28 ∧
      (connect_tsap c l r (.ok iso_resp pn_resp elapsed)).1.max_wr_pdu_data =
        mk_u16 (pn_resp.getD 25 0) (pn_resp.getD 26 0) + 65508 ∧
      (mk_u16 (pn_resp.getD 25 0) (pn_resp.getD 26 0) < 18 →
        u16SubUnderflows (mk_u16 (pn_resp.getD 25 0) (pn_resp.getD 26 0)) 18 ∧
        (connect_tsap c l r (.ok iso_resp pn_resp elapsed)).1.max_rd_pdu_data =
          mk_u16 (pn_resp.getD 25 0) (pn_resp.getD 26 0) + 65518)) := by
  have hnot1 : ¬ (iso_resp.length < ISO_CR_LEN ∨ iso_resp.getD 5 0 ≠ ISO_CONN_OK) := by
    push_neg
    exact ⟨by omega, hisook⟩
  have hnot2 : ¬ (pn_resp.length < ISO_PN_RES_LEN ∨ pn_resp.getD 0 0 ≠ ISO_ID ∨
      pn_resp.getD 7 0 ≠ S7_ID ∨ pn_resp.getD 17 0 ≠ 0x00) := by
    push_neg
    exact ⟨by omega, hpn0, hpn7, hpn17⟩
  simp only [connect_tsap]
  rw [if_neg hnot1, if_neg hnot2]
  set pdu := mk_u16 (pn_resp.getD 25 0) (pn_resp.getD 26 0) with hpdu
  constructor
  · constructor
    · intro h
      by_contra hz
      rw [if_neg hz] at h
      simp at h
    · intro h
      rw [if_pos h]
  · intro h1 h27
    have hz : pdu ≠ 0 := by omega
    rw [if_neg hz]
    have hlt : pdu < 65536 := by
      rw [hpdu]
      unfold mk_u16
      omega
    refine ⟨rfl, rfl, by unfold u16SubUnderflows; omega, ?_, ?_⟩
    · show u16_sub pdu 28 = pdu + 65508
      unfold u16_sub
      omega
    · intro h18
      refine ⟨by unfold u16SubUnderflows; omega, ?_⟩
      show u16_sub pdu 18 = pdu + 65518
      unfold u16_sub
      omega

/-- Claim C9, witness: a negotiation response carrying pdu_length = 20
(header checks passing) makes connect_tsap succeed with wrapped
max_wr_pdu_data = 65528 instead of failing. -/
theorem connect_tsap_pdu_underflow_witness :
    ISO_CR_LEN ≤ (List.replicate 22 0xD0).length ∧
    mk_u16 ((([0x03, 0, 0, 0, 0, 0, 0, 0x32, 0, 0, 0, 0, 0, 0, 0, 0, 0, 0,
        0, 0, 0, 0, 0, 0, 0, 0, 20] : List Nat)).getD 25 0)
      ((([0x03, 0, 0, 0, 0, 0, 0, 0x32, 0, 0, 0, 0, 0, 0, 0, 0, 0, 0,
        0, 0, 0, 0, 0, 0, 0, 0, 20] : List Nat)).getD 26 0) = 20 ∧
    (connect_tsap S7Client.new 0x0100 0x0100
        (.ok (List.replicate 22 0xD0)
          [0x03, 0, 0, 0, 0, 0, 0, 0x32, 0, 0, 0, 0, 0, 0, 0, 0, 0, 0,
           0, 0, 0, 0, 0, 0, 0, 0, 20] 9)).2.1 = .ok () ∧
    (connect_tsap S7Client.new 0x0100 0x0100
        (.ok (List.replicate 22 0xD0)
          [0x03, 0, 0, 0, 0, 0, 0, 0x32, 0, 0, 0, 0, 0, 0, 0, 0, 0, 0,
           0, 0, 0, 0, 0, 0, 0, 0, 20] 9)).1.max_wr_pdu_data = 65528 := by
  refine ⟨by decide, by decide, ?_⟩
  have h := connect_tsap_pdu_underflow S7Client.new 0x0100 0x0100
    (List.replicate 22 0xD0)
    [0x03, 0, 0, 0, 0, 0, 0, 0x32, 0, 0, 0, 0, 0, 0, 0, 0, 0, 0,
     0, 0, 0, 0, 0, 0, 0, 0, 20] 9
    (by decide) (by decide) (by decide) (by decide) (by decide) (by decide)
  have h2 := h.2 (by decide) (by decide)
  exact ⟨h2.1, by exact h2.2.2.2.1⟩

/-! ## Helper lemmas for the chunk loops -/

theorem ceil_div_step (r m : Nat) (hr : 1 ≤ r) (hm : 1 ≤ m) :
    ceil_div r m = 1 + ceil_div (r - min r m) m := by
  unfold ceil_div
  rcases le_or_lt r m with h | h
  · have h0 : r - min r m = 0 := by omega
    rw [h0]
    have hz : (0 + m - 1) / m = 0 := Nat.div_eq_of_lt (by omega)
    have ho : (r + m - 1) / m = 1 := Nat.div_eq_of_lt_le (by omega) (by omega)
    omega
  · have hmin : min r m = m := by omega
    rw [hmin]
    have e1 : r + m - 1 = r - 1 + m := by omega
    have e2 : r - m + m - 1 = r - 1 := by omega
    rw [e1, e2, Nat.add_div_right _ (by omega)]
    omega

theorem read_loop_zero_max (pdu d db area wl : Nat) :
    ∀ (fuel : Nat) (resps : List ChunkIO) (offset ls ch : Nat)
      (buf : List Nat) (sent : List (List Nat)) (out : LoopOut),
      read_loop 0 pdu d db area wl resps offset ls ch buf sent fuel = some out →
      out.result = .ok () → d ≤ offset := by
  intro fuel
  induction fuel with
  | zero =>
    intro resps offset ls ch buf sent out h hok
    by_cases hoff : d ≤ offset
    · exact hoff
    · simp only [read_loop, if_neg hoff] at h
      cases h
  | succ n ih =>
    intro resps offset ls ch buf sent out h hok
    by_cases hoff : d ≤ offset
    · exact hoff
    · cases resps with
      | nil =>
        simp only [read_loop, if_neg hoff] at h
        cases h
        simp at hok
      | cons io rest =>
        simp only [read_loop, if_neg hoff] at h
        cases hchk : read_chunk_check pdu (min (d - offset) 0) io with
        | error e =>
          rw [hchk] at h
          cases h
          simp at hok
        | ok payload =>
          rw [hchk] at h
          have := ih rest (offset + min (d - offset) 0)
            (ls + min (d - offset) 0) (ch + 1) _ _ out h hok
          omega

theorem read_loop_ok_chunks (max_rd pdu d db area wl : Nat) (hm : 1 ≤ max_rd) :
    ∀ (fuel : Nat) (resps : List ChunkIO) (offset ls ch : Nat)
      (buf : List Nat) (sent : List (List Nat)) (out : LoopOut),
      read_loop max_rd pdu d db area wl resps offset ls ch buf sent fuel = some out →
      out.result = .ok () → out.chunks = ch + ceil_div (d - offset) max_rd := by
  intro fuel
  induction fuel with
  | zero =>
    intro resps offset ls ch buf sent out h hok
    by_cases hoff : d ≤ offset
    · simp only [read_loop, if_pos hoff] at h
      cases h
      show ch = ch + ceil_div (d - offset) max_rd
      have h0 : d - offset = 0 := by omega
      have hz : ceil_div 0 max_rd = 0 := by
        unfold ceil_div
        exact Nat.div_eq_of_lt (by omega)
      rw [h0, hz]
      omega
    · simp only [read_loop, if_neg hoff] at h
      cases h
  | succ n ih =>
    intro resps offset ls ch buf sent out h hok
    by_cases hoff : d ≤ offset
    · simp only [read_loop, if_pos hoff] at h
      cases h
      show ch = ch + ceil_div (d - offset) max_rd
      have h0 : d - offset = 0 := by omega
      have hz : ceil_div 0 max_rd = 0 := by
        unfold ceil_div
        exact Nat.div_eq_of_lt (by omega)
      rw [h0, hz]
      omega
    · cases resps with
      | nil =>
        simp only [read_loop, if_neg hoff] at h
        cases h
        simp at hok
      | cons io rest =>
        simp only [read_loop, if_neg hoff] at h
        cases hchk : read_chunk_check pdu (min (d - offset) max_rd) io with
        | error e =>
          rw [hchk] at h
          cases h
          simp at hok
        | ok payload =>
          rw [hchk] at h
          have hrec := ih rest (offset + min (d - offset) max_rd)
            (ls + min (d - offset) max_rd) (ch + 1) _ _ out h hok
          have hstep := ceil_div_step (d - offset) max_rd (by omega) hm
          have harg : d - (offset + min (d - offset) max_rd) =
              d - offset - min (d - offset) max_rd := by omega
          rw [harg] at hrec
          omega

theorem write_loop_zero_max (pdu d db area wl : Nat) (buffer : List Nat) :
    ∀ (fuel : Nat) (resps : List ChunkIO) (offset ls ch : Nat)
      (sent : List (List Nat)) (out : LoopOut),
      write_loop 0 pdu d db area wl buffer resps offset ls ch sent fuel = some out →
      out.result = .ok () → d ≤ offset := by
  intro fuel
  induction fuel with
  | zero =>
    intro resps offset ls ch sent out h hok
    by_cases hoff : d ≤ offset
    · exact hoff
    · simp only [write_loop, if_neg hoff] at h
      cases h
  | succ n ih =>
    intro resps offset ls ch sent out h hok
    by_cases hoff : d ≤ offset
    · exact hoff
    · cases resps with
      | nil =>
        simp only [write_loop, if_neg hoff] at h
        cases h
        simp at hok
      | cons io rest =>
        simp only [write_loop, if_neg hoff] at h
        cases hchk : write_chunk_check pdu io with
        | error e =>
          rw [hchk] at h
          cases h
          simp at hok
        | ok u =>
          rw [hchk] at h
          cases u
          have := ih rest (offset + min (d - offset) 0)
            (ls + min (d - offset) 0) (ch + 1) _ out h hok
          omega

theorem write_loop_ok_chunks (max_wr pdu d db area wl : Nat) (buffer : List Nat)
    (hm : 1 ≤ max_wr) :
    ∀ (fuel : Nat) (resps : List ChunkIO) (offset ls ch : Nat)
      (sent : List (List Nat)) (out : LoopOut),
      write_loop max_wr pdu d db area wl buffer resps offset ls ch sent fuel = some out →
      out.result = .ok () → out.chunks = ch + ceil_div (d - offset) max_wr := by
  intro fuel
  induction fuel with
  | zero =>
    intro resps offset ls ch sent out h hok
    by_cases hoff : d ≤ offset
    · simp only [write_loop, if_pos hoff] at h
      cases h
      show ch = ch + ceil_div (d - offset) max_wr
      have h0 : d - offset = 0 := by omega
      have hz : ceil_div 0 max_wr = 0 := by
        unfold ceil_div
        exact Nat.div_eq_of_lt (by omega)
      rw [h0, hz]
      omega
    · simp only [write_loop, if_neg hoff] at h
      cases h
  | succ n ih =>
    intro resps offset ls ch sent out h hok
    by_cases hoff : d ≤ offset
    · simp only [write_loop, if_pos hoff] at h
      cases h
      show ch = ch + ceil_div (d - offset) max_wr
      have h0 : d - offset = 0 := by omega
      have hz : ceil_div 0 max_wr = 0 := by
        unfold ceil_div
        exact Nat.div_eq_of_lt (by omega)
      rw [h0, hz]
      omega
    · cases resps with
      | nil =>
        simp only [write_loop, if_neg hoff] at h
        cases h
        simp at hok
      | cons io rest =>
        simp only [write_loop, if_neg hoff] at h
        cases hchk : write_chunk_check pdu io with
        | error e =>
          rw [hchk] at h
          cases h
          simp at hok
        | ok u =>
          rw [hchk] at h
          cases u
          have hrec := ih rest (offset + min (d - offset) max_wr)
            (ls + min (d - offset) max_wr) (ch + 1) _ out h hok
          have hstep := ceil_div_step (d - offset) max_wr (by omega) hm
          have harg : d - (offset + min (d - offset) max_wr) =
              d - offset - min (d - offset) max_wr := by omega
          rw [harg] at hrec
          omega

theorem read_area_byte_connected (c : S7Client) (area db_number start : Nat)
    (buffer : List Nat) (resps : List ChunkIO) (elapsed : Nat)
    (hc : c.connected = true) (h2 : buffer.length ≤ 65535) :
    read_area c area db_number start S7_WL_BYTE buffer resps elapsed =
      finish_op c elapsed
        (read_loop c.max_rd_pdu_data c.pdu_length buffer.length db_number
          area S7_WL_BYTE resps 0 start 0 buffer [] buffer.length) := by
  unfold read_area
  rw [if_pos hc]
  have hds : (if S7_WL_BYTE = S7_WL_BYTE then min buffer.length 65535 else 1) =
      buffer.length := by
    rw [if_pos rfl]
    omega
  rw [hds]
  rfl

theorem write_area_byte_connected (c : S7Client) (area db_number start : Nat)
    (buffer : List Nat) (resps : List ChunkIO) (elapsed : Nat)
    (hc : c.connected = true) (h2 : buffer.length ≤ 65535) :
    write_area c area db_number start S7_WL_BYTE buffer resps elapsed =
      finish_op c elapsed
        (write_loop c.max_wr_pdu_data c.pdu_length buffer.length db_number
          area S7_WL_BYTE buffer resps 0 start 0 [] buffer.length) := by
  unfold write_area
  rw [if_pos hc]
  have hds : (if S7_WL_BYTE = S7_WL_BYTE then min buffer.length 65535 else 1) =
      buffer.length := by
    rw [if_pos rfl]
    omega
  rw [hds]
  rfl

/-- Claim C2: for every connected session and buffer of N bytes,
1 ≤ N ≤ 65535, wordlen BYTE, a successful read_area leaves the chunks
counter at ceil(N / max_rd_pdu_data) and a successful write_area leaves it
at ceil(N / max_wr_pdu_data); the per-iteration chunk size is
min(remaining, cap), as embedded in read_loop and write_loop. -/
theorem rw_area_chunk_count (c : S7Client) (area db_number start : Nat)
    (buffer : List Nat) (resps : List ChunkIO) (elapsed : Nat)
    (hc : c.connected = true) (h1 : 1 ≤ buffer.length)
    (h2 : buffer.length ≤ 65535) :
    (succeeded (read_area c area db_number start S7_WL_BYTE buffer resps elapsed) = true →
      chunks_of (read_area c area db_number start S7_WL_BYTE buffer resps elapsed) =
        ceil_div buffer.length c.max_rd_pdu_data) ∧
    (succeeded (write_area c area db_number start S7_WL_BYTE buffer resps elapsed) = true →
      chunks_of (write_area c area db_number start S7_WL_BYTE buffer resps elapsed) =
        ceil_div buffer.length c.max_wr_pdu_data) := by
  constructor
  · intro hs
    rw [read_area_byte_connected c area db_number start buffer resps elapsed hc h2]
      at hs ⊢
    revert hs
    cases hloop : read_loop c.max_rd_pdu_data c.pdu_length buffer.length
        db_number area S7_WL_BYTE resps 0 start 0 buffer [] buffer.length with
    | none =>
      intro hs
      simp [succeeded, finish_op] at hs
    | some out =>
      simp only [finish_op]
      cases hres : out.result with
      | error e =>
        intro hs
        simp [succeeded] at hs
      | ok u =>
        cases u
        intro hs
        have hmr : 1 ≤ c.max_rd_pdu_data := by
          by_contra hmr0
          have hz : c.max_rd_pdu_data = 0 := by omega
          rw [hz] at hloop
          have := read_loop_zero_max c.pdu_length buffer.length db_number area
            S7_WL_BYTE buffer.length resps 0 start 0 buffer [] out hloop hres
          omega
        have hcount := read_loop_ok_chunks c.max_rd_pdu_data c.pdu_length
          buffer.length db_number area S7_WL_BYTE hmr buffer.length resps 0
          start 0 buffer [] out hloop hres
        rw [Nat.sub_zero, Nat.zero_add] at hcount
        show out.chunks = ceil_div buffer.length c.max_rd_pdu_data
        exact hcount
  · intro hs
    rw [write_area_byte_connected c area db_number start buffer resps elapsed hc h2]
      at hs ⊢
    revert hs
    cases hloop : write_loop c.max_wr_pdu_data c.pdu_length buffer.length
        db_number area S7_WL_BYTE buffer resps 0 start 0 [] buffer.length with
    | none =>
      intro hs
      simp [succeeded, finish_op] at hs
    | some out =>
      simp only [finish_op]
      cases hres : out.result with
      | error e =>
        intro hs
        simp [succeeded] at hs
      | ok u =>
        cases u
        intro hs
        have hmr : 1 ≤ c.max_wr_pdu_data := by
          by_contra hmr0
          have hz : c.max_wr_pdu_data = 0 := by omega
          rw [hz] at hloop
          have := write_loop_zero_max c.pdu_length buffer.length db_number area
            S7_WL_BYTE buffer buffer.length resps 0 start 0 [] out hloop hres
          omega
        have hcount := write_loop_ok_chunks c.max_wr_pdu_data c.pdu_length
          buffer.length db_number area S7_WL_BYTE buffer hmr buffer.length
          resps 0 start 0 [] out hloop hres
        rw [Nat.sub_zero, Nat.zero_add] at hcount
        show out.chunks = ceil_div buffer.length c.max_wr_pdu_data
        exact hcount

/-- Claim C2, witness: a connected session with max_rd_pdu_data = 3 and
max_wr_pdu_data = 2 reads and writes the 4-byte witness buffer in
ceil(4/3) = 2 and ceil(4/2) = 2 chunks respectively. -/
theorem rw_area_chunk_count_witness :
    cW.connected = true ∧ 1 ≤ bufW.length ∧ bufW.length ≤ 65535 ∧
    succeeded (read_area cW S7_AREA_DB 100 0 S7_WL_BYTE bufW respsW 7) = true ∧
    chunks_of (read_area cW S7_AREA_DB 100 0 S7_WL_BYTE bufW respsW 7) =
      ceil_div bufW.length cW.max_rd_pdu_data ∧
    succeeded (write_area cW S7_AREA_DB 100 0 S7_WL_BYTE bufW respsW 7) = true ∧
    chunks_of (write_area cW S7_AREA_DB 100 0 S7_WL_BYTE bufW respsW 7) =
      ceil_div bufW.length cW.max_wr_pdu_data := by
  have h := rw_area_chunk_count cW S7_AREA_DB 100 0 bufW respsW 7 rfl
    (by decide) (by decide)
  exact ⟨rfl, by decide, by decide, by decide, h.1 (by decide), by decide,
    h.2 (by decide)⟩

/-- Claim C4 (code bug): `read_bit` and `write_bit` reject `bit_idx > 7`
before resetting `last_time`, so a session whose previous operation
succeeded (here with `last_time = 5`) keeps the stale non-zero value after
the erroring call, contradicting the field's own documentation
(client.rs lines 135-137: if an error occurred the value will be 0). -/
theorem read_bit_stale_last_time :
    read_bit { S7Client.new with connected := true, last_time := 5 }
        S7_AREA_DB 1 0 8 [] 0 =
      some ({ S7Client.new with connected := true, last_time := 5 },
        .error .S7InvalidAddress, []) ∧
    write_bit { S7Client.new with connected := true, last_time := 5 }
        S7_AREA_DB 1 0 8 true [] 0 =
      some ({ S7Client.new with connected := true, last_time := 5 },
        .error .S7InvalidAddress, []) ∧
    ({ S7Client.new with connected := true, last_time := 5 } : S7Client).last_time =
      5 := by
  exact ⟨rfl, rfl, rfl⟩

/-- Claim C5, counterexample: on the disconnected fresh session, read_bit
with bit_idx = 8 returns S7InvalidAddress, not NotConnected (the bit-index
guard precedes the connection check). -/
theorem disconnected_read_bit_counterexample :
    S7Client.new.connected = false ∧
    read_bit S7Client.new S7_AREA_DB 1 0 8 [] 0 =
      some (S7Client.new, .error .S7InvalidAddress, []) ∧
    S7Error.S7InvalidAddress ≠ S7Error.NotConnected := by
  exact ⟨rfl, rfl, by decide⟩

/-- Claim C5 (amended): every operation on a disconnected session returns
NotConnected without performing any I/O (the sent trace is empty and the
result ignores the response stream), except that read_bit and write_bit
with bit_idx > 7 return S7InvalidAddress instead — still without I/O —
because the bit-index guard precedes the connection check. -/
theorem disconnected_ops (c : S7Client)
    (area db_number start wordlen byte_num bit_idx : Nat) (value : Bool)
    (buffer : List Nat) (resps : List ChunkIO) (elapsed : Nat)
    (hc : c.connected = false) :
    read_area c area db_number start wordlen buffer resps elapsed =
      some ⟨{ c with last_time := 0, chunks := 0 }, .error .NotConnected,
        buffer, []⟩ ∧
    write_area c area db_number start wordlen buffer resps elapsed =
      some ⟨{ c with last_time := 0, chunks := 0 }, .error .NotConnected,
        buffer, []⟩ ∧
    read_db c db_number start buffer resps elapsed =
      some ⟨{ c with last_time := 0, chunks := 0 }, .error .NotConnected,
        buffer, []⟩ ∧
    write_db c db_number start buffer resps elapsed =
      some ⟨{ c with last_time := 0, chunks := 0 }, .error .NotConnected,
        buffer, []⟩ ∧
    read_bit c area db_number byte_num bit_idx resps elapsed =
      (if bit_idx > 7 then some (c, .error .S7InvalidAddress, [])
       else some ({ c with last_time := 0, chunks := 0 },
         .error .NotConnected, [])) ∧
    write_bit c area db_number byte_num bit_idx value resps elapsed =
      (if bit_idx > 7 then some (c, .error .S7InvalidAddress, [])
       else some ({ c with last_time := 0, chunks := 0 },
         .error .NotConnected, [])) := by
  have hra : ∀ (a d st wl : Nat) (buf : List Nat),
      read_area c a d st wl buf resps elapsed =
        some ⟨{ c with last_time := 0, chunks := 0 }, .error .NotConnected,
          buf, []⟩ := by
    intro a d st wl buf
    unfold read_area
    rw [if_neg (by rw [hc]; exact Bool.false_ne_true)]
  have hwa : ∀ (a d st wl : Nat) (buf : List Nat),
      write_area c a d st wl buf resps elapsed =
        some ⟨{ c with last_time := 0, chunks := 0 }, .error .NotConnected,
          buf, []⟩ := by
    intro a d st wl buf
    unfold write_area
    rw [if_neg (by rw [hc]; exact Bool.false_ne_true)]
  refine ⟨hra _ _ _ _ _, hwa _ _ _ _ _, hra _ _ _ _ _, hwa _ _ _ _ _, ?_, ?_⟩
  · unfold read_bit
    by_cases hb : bit_idx > 7
    · rw [if_pos hb, if_pos hb]
    · rw [if_neg hb, if_neg hb, hra]
  · unfold write_bit
    by_cases hb : bit_idx > 7
    · rw [if_pos hb, if_pos hb]
    · rw [if_neg hb, if_neg hb, hwa]

/-- Claim C5 (amended), witness: the fresh disconnected session with a
byte read of a 2-byte buffer surfaces NotConnected with an empty sent
trace. -/
theorem disconnected_ops_witness :
    S7Client.new.connected = false ∧
    read_area S7Client.new S7_AREA_DB 1 0 S7_WL_BYTE [1, 2] [] 3 =
      some ⟨{ S7Client.new with last_time := 0, chunks := 0 },
        .error .NotConnected, [1, 2], []⟩ := by
  exact ⟨rfl,
    (disconnected_ops S7Client.new S7_AREA_DB 1 0 S7_WL_BYTE 0 8 true
      [1, 2] [] 3 rfl).1⟩

/-- Claim C6: for every session state and arguments, bit_idx > 7 makes
read_bit and write_bit return S7InvalidAddress with the session unchanged
and nothing sent on the wire (no request telegram is built). -/
theorem bit_idx_guard (c : S7Client) (area db_number byte_num bit_idx : Nat)
    (value : Bool) (resps : List ChunkIO) (elapsed : Nat)
    (h : bit_idx > 7) :
    read_bit c area db_number byte_num bit_idx resps elapsed =
      some (c, .error .S7InvalidAddress, []) ∧
    write_bit c area db_number byte_num bit_idx value resps elapsed =
      some (c, .error .S7InvalidAddress, []) := by
  unfold read_bit write_bit
  rw [if_pos h, if_pos h]
  exact ⟨rfl, rfl⟩

/-- Claim C6, witness: bit_idx = 8 on the fresh session. -/
theorem bit_idx_guard_witness :
    (8 : Nat) > 7 ∧
    read_bit S7Client.new S7_AREA_DB 10 71 8 [] 0 =
      some (S7Client.new, .error .S7InvalidAddress, []) ∧
    write_bit S7Client.new S7_AREA_DB 10 71 8 true [] 0 =
      some (S7Client.new, .error .S7InvalidAddress, []) := by
  have h := bit_idx_guard S7Client.new S7_AREA_DB 10 71 8 true [] 0
    (by decide)
  exact ⟨by decide, h.1, h.2⟩

/-- Claim C8: in a read_area chunk iteration at `offset < datasize` whose
response passes every check (valid ISO prefix, s7_comm_size ≥ 18,
size_resp ≥ s7_comm_size, result byte 0xFF — even when the payload is
shorter than the requested chunk), the loop accepts the response without
error: exactly min(size_resp - 18, chunk_size) payload bytes are spliced
into the caller buffer at the current offset, while the buffer offset and
the wire start address both advance by the full chunk_size. -/
theorem read_loop_step_behavior
    (max_rd pdu_length datasize db_number area wordlen : Nat)
    (resps : List ChunkIO) (io : ChunkIO)
    (offset long_start chunks fuel : Nat)
    (buffer : List Nat) (sent : List (List Nat)) (payload : List Nat)
    (hoff : offset < datasize)
    (hchk : read_chunk_check pdu_length (min (datasize - offset) max_rd) io =
      .ok payload) :
    read_loop max_rd pdu_length datasize db_number area wordlen (io :: resps)
        offset long_start chunks buffer sent (fuel + 1) =
      read_loop max_rd pdu_length datasize db_number area wordlen resps
        (offset + min (datasize - offset) max_rd)
        (long_start + min (datasize - offset) max_rd) (chunks + 1)
        (buffer.take offset ++ payload ++
          buffer.drop (offset + payload.length))
        (sent ++ [read_request wordlen (min (datasize - offset) max_rd)
          db_number area
          (if wordlen = S7_WL_BIT then long_start else long_start * 8)])
        fuel ∧
    payload.length =
      min (min io.resp.length PDU_LEN_REQ - READ_RES_LEN)
        (min (datasize - offset) max_rd) := by
  constructor
  · simp only [read_loop, if_neg (by omega : ¬ datasize ≤ offset)]
    rw [hchk]
  · simp only [read_chunk_check] at hchk
    split at hchk
    · cases hchk
    · split at hchk
      · cases hchk
      · split at hchk
        · cases hchk
        · split at hchk
          · cases hchk
          · cases hchk
            rw [List.length_drop, List.length_take]
            unfold READ_RES_LEN PDU_LEN_REQ at *
            omega

/-- Claim C8, witness: a short read — chunk_size 10, s7_comm_size 18,
size_resp 21, so only min(21 - 18, 10) = 3 payload bytes — is accepted and
spliced at the current offset while the offset advances by the full 10. -/
theorem read_loop_step_behavior_witness :
    (0 : Nat) < 10 ∧
    read_chunk_check 240 (min (10 - 0) 10)
      ⟨⟨0x03, 0x00, 0x00, 25, 0x02, 0xF0, 0x80⟩,
       [0, 0, 0, 0, 0, 0, 0, 0, 0, 0, 0, 0, 0, 0, 0xFF, 0, 0, 0, 7, 8, 9]⟩ =
      .ok [7, 8, 9] ∧
    ([7, 8, 9] : List Nat).length =
      min (min ([0, 0, 0, 0, 0, 0, 0, 0, 0, 0, 0, 0, 0, 0, 0xFF, 0, 0, 0,
        7, 8, 9] : List Nat).length PDU_LEN_REQ - READ_RES_LEN)
        (min (10 - 0) 10) := by
  refine ⟨by decide, by decide, ?_⟩
  exact (read_loop_step_behavior 10 240 10 100 S7_AREA_DB S7_WL_BYTE []
    ⟨⟨0x03, 0x00, 0x00, 25, 0x02, 0xF0, 0x80⟩,
     [0, 0, 0, 0, 0, 0, 0, 0, 0, 0, 0, 0, 0, 0, 0xFF, 0, 0, 0, 7, 8, 9]⟩
    0 0 0 0 (List.replicate 10 0) [] [7, 8, 9] (by decide) (by decide)).2

/-- Claim C10: read_bit and write_bit compute
`start = byte_num * 8 + bit_idx` in u16 arithmetic; for byte_num ≥ 8192
the multiplication overflows the u16 range (aborting a debug build), the
bit address carried on the wire is the wrapped value
`byte_num % 8192 * 8 + bit_idx`, different from `byte_num * 8 + bit_idx`,
and no error variant is raised: the call behaves exactly like the one at
the aliased in-range byte number. -/
theorem bit_addr_overflow (c : S7Client)
    (area db_number byte_num bit_idx : Nat) (value : Bool)
    (resps : List ChunkIO) (elapsed : Nat)
    (hb : bit_idx ≤ 7) (hlo : 8192 ≤ byte_num) :
    65536 ≤ byte_num * 8 ∧
    (byte_num * 8 + bit_idx) % 65536 = byte_num % 8192 * 8 + bit_idx ∧
    byte_num % 8192 * 8 + bit_idx ≠ byte_num * 8 + bit_idx ∧
    read_bit c area db_number byte_num bit_idx resps elapsed =
      read_bit c area db_number (byte_num % 8192) bit_idx resps elapsed ∧
    write_bit c area db_number byte_num bit_idx value resps elapsed =
      write_bit c area db_number (byte_num % 8192) bit_idx value resps
        elapsed := by
  have hmod : (byte_num * 8 + bit_idx) % 65536 =
      byte_num % 8192 * 8 + bit_idx := by omega
  have hmod2 : (byte_num % 8192 * 8 + bit_idx) % 65536 =
      byte_num % 8192 * 8 + bit_idx := by omega
  refine ⟨by omega, hmod, by omega, ?_, ?_⟩
  · unfold read_bit
    rw [hmod, hmod2]
  · unfold write_bit
    rw [hmod, hmod2]

/-- Claim C10, witness: byte_num = 8192 with bit_idx = 0 wraps the wire
address to 0 and aliases the call at byte 0. -/
theorem bit_addr_overflow_witness :
    (0 : Nat) ≤ 7 ∧ (8192 : Nat) ≤ 8192 ∧
    (65536 : Nat) ≤ 8192 * 8 ∧
    (8192 * 8 + 0) % 65536 = 8192 % 8192 * 8 + 0 ∧
    read_bit S7Client.new S7_AREA_DB 1 8192 0 [] 0 =
      read_bit S7Client.new S7_AREA_DB 1 (8192 % 8192) 0 [] 0 := by
  have h := bit_addr_overflow S7Client.new S7_AREA_DB 1 8192 0 true [] 0
    (by decide) (by decide)
  exact ⟨by decide, by decide, h.1, h.2.1, h.2.2.2.1⟩

end Rust7
